import Mathlib

/-!
Shallow embedding of the bridge-and-navigation-guard subsystem of the
veiculorastreado app (src/components/WebViewScreen.tsx, src/utils/config.ts,
src/utils/messaging.ts, and the root layout's notification router).

JavaScript strings are modelled as Lean `String`; the string operations the
code uses (`includes`, `endsWith`, `split('.')`, `join('.')`, truthiness of
possibly-absent string values) are given explicit executable definitions over
`String.data` so that every predicate evaluates by kernel reduction.
-/

namespace VeiculoRastreado

/-- Substring containment starting at any position: models JavaScript
`hay.includes(needle)`. -/
def containsFrom (needle : List Char) : List Char → Bool
  | [] => needle.isEmpty
  | c :: rest => needle.isPrefixOf (c :: rest) || containsFrom needle rest

/-- Models JavaScript `hay.includes(needle)`. -/
def strContainsSub (hay needle : String) : Bool :=
  containsFrom needle.data hay.data

/-- Models JavaScript `s.endsWith(suffix)`. -/
def strEndsWith (s suffix : String) : Bool :=
  suffix.data.isSuffixOf s.data

/-- Models JavaScript `s.includes('.')` (used to classify allow-list entries). -/
def strHasDot (s : String) : Bool :=
  s.data.any (fun c => c == '.')

/-- Helper for `splitOnDot`: accumulates the current label (reversed). -/
def splitOnDotAux : List Char → List Char → List String
  | [], acc => [String.mk acc.reverse]
  | c :: rest, acc =>
    if c == '.' then String.mk acc.reverse :: splitOnDotAux rest []
    else splitOnDotAux rest (c :: acc)

/-- Models JavaScript `s.split('.')` (empty labels are kept, as in JS). -/
def splitOnDot (s : String) : List String :=
  splitOnDotAux s.data []

/-- Models JavaScript `parts.join('.')`. -/
def joinDot : List String → String
  | [] => ""
  | [s] => s
  | s :: rest => s ++ "." ++ joinDot rest

/-- JavaScript truthiness of a possibly-absent string value: absent and the
empty string are falsy, every other string is truthy. -/
def truthy : Option String → Bool
  | none => false
  | some s => !s.data.isEmpty

/-- Models JavaScript `v || d` for a possibly-absent string `v` with string
default `d`. -/
def orElse (v : Option String) (d : String) : String :=
  match v with
  | none => d
  | some s => if s.data.isEmpty then d else s

/-- Outcome of the navigation guard. -/
inductive Decision
  | allow
  | block
deriving DecidableEq, Repr

/-- The per-entry matching rule of the guard, from WebViewScreen.tsx lines
451-456: a dotted entry matches by equality or by `"." + entry` suffix, a
bare entry matches as a substring of the hostname. -/
def domainMatches (hostname domain : String) : Bool :=
  if strHasDot domain then
    hostname == domain || strEndsWith hostname ("." ++ domain)
  else
    strContainsSub hostname domain

/-- Expression `allowedDomains.some(...)` from WebViewScreen.tsx line 450. -/
def isAllowedUrl (hostname : String) (domains : List String) : Bool :=
  domains.any (fun domain => domainMatches hostname domain)

/-- The guard decision of `handleNavigationStateChange`: `new URL(url)` is
modelled by its result, an optional hostname; a parse failure (`none`) lands
in the `catch` block, which allows the navigation. -/
def evaluateNavigation (parsedHostname : Option String) (domains : List String) :
    Decision :=
  match parsedHostname with
  | none => .allow
  | some hostname =>
    if isAllowedUrl hostname domains then .allow else .block

/-- Expression `hostname.split('.').slice(-2).join('.')` from config.ts line 45.
JavaScript `slice(-2)` keeps the last two elements (all of them when there are
fewer than two), which `drop (length - 2)` reproduces with `Nat` subtraction. -/
def lastTwoLabels (hostname : String) : String :=
  let parts := splitOnDot hostname
  joinDot (parts.drop (parts.length - 2))

/-- The `allowedDomains` getter of config.ts lines 39-63. `new URL(baseUrl)`
is modelled by its result, an optional hostname; a parse failure (`none`)
lands in the `catch` block, which returns `['wefleet.com.br']`. -/
def allowedDomains (parsedHostname : Option String) : List String :=
  match parsedHostname with
  | none => ["wefleet.com.br"]
  | some hostname =>
    let domain := lastTwoLabels hostname
    let domains := [domain]
    if strContainsSub hostname "wefleet.com.br" then
      domains ++ ["m.wefleet.com.br", "m2.wefleet.com.br"]
    else
      domains

/-- Hostname of the default configured base URL
`https://m.wefleet.com.br/mob/mfrastreadores` (config.ts line 22). -/
def baseUrlHostname : String := "m.wefleet.com.br"

/-- Function `constructUrl` from WebViewScreen.tsx lines 333-338: appends
`?device=<token>` when the token is truthy, returns the base alone otherwise. -/
def constructUrl (base : String) (token : Option String) : String :=
  if truthy token then base ++ "?device=" ++ orElse token ""
  else base

/-- Observable native side effects of the bridge handlers. -/
inductive Effect
  | stopLoading
  | toast (msg : String)
  | goBack
  | redirect (url : String)
  | openUrl (url : String)
deriving DecidableEq, Repr

/-- Effect trace of `handleNavigationStateChange` (WebViewScreen.tsx lines
424-487). On parse failure the `catch` block performs no reaction; on an
allowed hostname nothing happens; on a blocked hostname the handler stops the
load, shows the advisory toast, then goes back when the WebView can go back
(the ref is modelled as always present) and otherwise redirects to the
composed base URL via injected JavaScript. -/
def handleNavigationStateChange (parsedHostname : Option String)
    (domains : List String) (canGoBack : Bool) (base : String)
    (token : Option String) : List Effect :=
  match parsedHostname with
  | none => []
  | some hostname =>
    if isAllowedUrl hostname domains then []
    else
      [.stopLoading, .toast "Navigation to external URLs is not allowed"] ++
        (if canGoBack then [.goBack] else [.redirect (constructUrl base token)])

/-- ASCII lowercasing, models JavaScript `s.toLowerCase()` on the ASCII
platform names the code compares against. -/
def toLowerStr (s : String) : String :=
  String.mk (s.data.map Char.toLower)

/-- JavaScript template interpolation of a possibly-undefined value:
an absent value renders as the text `undefined`. -/
def interpText : Option String → String
  | none => "undefined"
  | some s => s

/-- The `socialUrl` computed by the `switch` of `openSocial`
(WebViewScreen.tsx lines 117-144): a truthy username selects the native deep
link for facebook/instagram/twitter/x; otherwise the explicit url or the
platform home page; unknown types use the explicit url or the empty string. -/
def socialPrimaryUrl (ty : String) (username url : Option String) : String :=
  let t := toLowerStr ty
  if t == "facebook" then
    if truthy username then "fb://profile/" ++ interpText username
    else orElse url "https://www.facebook.com"
  else if t == "instagram" then
    if truthy username then "instagram://user?username=" ++ interpText username
    else orElse url "https://www.instagram.com"
  else if t == "twitter" || t == "x" then
    if truthy username then "twitter://user?screen_name=" ++ interpText username
    else orElse url "https://twitter.com"
  else if t == "linkedin" then orElse url "https://www.linkedin.com"
  else if t == "youtube" then orElse url "https://www.youtube.com"
  else orElse url ""

/-- The `webUrl` fallback of `openSocial` (WebViewScreen.tsx lines 159-164).
The source expression is
`url || (t === 'facebook' && username) ? A : (t === 'instagram' && username)
? B : ... : E`; JavaScript `||` binds tighter than `?:`, so the first
condition is `url || (t === 'facebook' && username)` and a truthy `url`
selects the facebook branch `A`. -/
def socialFallbackUrl (ty : String) (username url : Option String) : String :=
  let t := toLowerStr ty
  if truthy url || (t == "facebook" && truthy username) then
    "https://www.facebook.com/" ++ interpText username
  else if t == "instagram" && truthy username then
    "https://www.instagram.com/" ++ interpText username
  else if t == "twitter" && truthy username then
    "https://twitter.com/" ++ interpText username
  else if t == "x" && truthy username then
    "https://x.com/" ++ interpText username
  else
    "https://www." ++ t ++ ".com"

/-- Effect trace of `openSocial` (WebViewScreen.tsx lines 111-177).
`Linking.canOpenURL(socialUrl)` is modelled by its boolean result
`supported`; an empty `socialUrl` shows the invalid-parameters advisory. -/
def openSocial (ty : String) (username url : Option String)
    (supported : Bool) : List Effect :=
  let socialUrl := socialPrimaryUrl ty username url
  if socialUrl.data.isEmpty then [.toast "Invalid social media parameters"]
  else if supported then [.openUrl socialUrl]
  else [.openUrl (socialFallbackUrl ty username url)]

/-- Inbound bridge messages by their `type` discriminator, with the
`appEvent`/`openSocial` payload carried inline (the only launcher a claim
is about). -/
inductive WebViewMessage
  | initialized (userAgent : String)
  | windowOpen (url : String)
  | appEventSocial (ty : String) (username url : Option String)
  | otherType (ty : String)
deriving DecidableEq, Repr

/-- Effect trace of `handleWebViewMessage` (WebViewScreen.tsx lines 522-573):
`initialized` and unknown types only log; `windowOpen` shows the advisory
toast and nothing else; `appEvent`/`openSocial` dispatches to `openSocial`. -/
def handleWebViewMessage (supported : Bool) : WebViewMessage → List Effect
  | .initialized _ => []
  | .windowOpen _ => [.toast "Navigation to external URLs is not allowed"]
  | .appEventSocial ty username url => openSocial ty username url supported
  | .otherType _ => []

/-- Permission state of the notification capability. -/
inductive PermissionState
  | granted
  | denied
  | unknown
deriving DecidableEq, Repr

/-- The platform the app runs on; Android carries its API level. -/
inductive PlatformOS
  | android (apiLevel : Nat)
  | ios
deriving DecidableEq, Repr

/-- Function `isAndroid13OrHigher` from messaging.ts lines 12-40, with the API level
taken directly from the platform value. -/
def isAndroid13OrHigher : PlatformOS → Bool
  | .android apiLevel => decide (33 ≤ apiLevel)
  | .ios => false

/-- Function `requestNotificationPermission` from messaging.ts lines 60-112, as a
function of the user's answer to the system prompt (`promptGrant`):
Android 13+ and iOS return the prompt outcome, Android below 13 is granted
by default. -/
def requestNotificationPermission (p : PlatformOS) (promptGrant : Bool) : Bool :=
  match p with
  | .android _ => if isAndroid13OrHigher p then promptGrant else true
  | .ios => promptGrant

/-- Whether a call to `requestNotificationPermission` presents a system
permission prompt: `PermissionsAndroid.request` on Android 13+ and
`messaging.requestPermission` on iOS do, Android below 13 does not. -/
def requestTriggersPrompt (p : PlatformOS) : Bool :=
  match p with
  | .android _ => isAndroid13OrHigher p
  | .ios => true

/-- Models `messaging.hasPermission()` (iOS: AUTHORIZED or PROVISIONAL map to
granted) and `PermissionsAndroid.check` (Android 13+): true exactly when the
current state is granted. -/
def hasPermissionCheck (s : PermissionState) : Bool :=
  s == .granted

/-- Environment of one `getFCMToken` call: the platform, the current
permission state, the outcome a system prompt would have, and the value the
transport's `getToken` would return (`none` models a failure caught and
converted to null). -/
structure TokenEnv where
  platform : PlatformOS
  permState : PermissionState
  promptGrant : Bool
  fetchedToken : Option String
deriving DecidableEq, Repr

/-- Result of `getFCMToken`: the returned token (or null) and whether a
system permission prompt was presented along the way. -/
structure TokenResult where
  token : Option String
  promptTriggered : Bool
deriving DecidableEq, Repr

/-- Function `getFCMToken` from messaging.ts lines 120-173. With `forceRequest` it
requests permission up front. Otherwise it checks the current status: on iOS
via `hasPermission` with no escalation; on Android 13+ via
`PermissionsAndroid.check`, escalating to `requestNotificationPermission`
whenever the check is not granted; on Android below 13 permission is assumed.
A non-granted outcome returns null without fetching. -/
def getFCMToken (forceRequest : Bool) (env : TokenEnv) : TokenResult :=
  if forceRequest then
    let g := requestNotificationPermission env.platform env.promptGrant
    { token := if g then env.fetchedToken else none,
      promptTriggered := requestTriggersPrompt env.platform }
  else
    match env.platform with
    | .ios =>
      if hasPermissionCheck env.permState then
        { token := env.fetchedToken, promptTriggered := false }
      else
        { token := none, promptTriggered := false }
    | .android apiLevel =>
      if isAndroid13OrHigher (.android apiLevel) then
        if hasPermissionCheck env.permState then
          { token := env.fetchedToken, promptTriggered := false }
        else
          let g := requestNotificationPermission env.platform env.promptGrant
          { token := if g then env.fetchedToken else none,
            promptTriggered := true }
      else
        { token := env.fetchedToken, promptTriggered := false }

/-- Constant `MAX_TOKEN_RETRIES` from WebViewScreen.tsx line 297. -/
def MAX_TOKEN_RETRIES : Nat := 3

/-- Function `getTokenWithRetry` from WebViewScreen.tsx lines 300-330, with React
state semantics made explicit. `closureCount` is the `tokenRetryCount` value
captured by the executing closure; `stateCount` is the actual React state.
On failure the handler runs `setTokenRetryCount(prev => prev + 1)` (a
functional update, so `stateCount` increments) and then calls
`getTokenWithRetry` again — but that call re-enters the same closure, whose
captured `tokenRetryCount` never changes, so the recursion proceeds with the
unchanged `closureCount`. The list argument is the stream of `getFCMToken`
outcomes, one per attempt; the first result component is `some r` when the
call chain returned `r` within those attempts and `none` when it was still
running after consuming them all. -/
def getTokenWithRetry (closureCount stateCount : Nat) :
    List (Option String) → Option (Option String) × Nat
  | [] => (none, stateCount)
  | fetch :: rest =>
    match fetch with
    | some t => (some (some t), stateCount)
    | none =>
      if closureCount < MAX_TOKEN_RETRIES - 1 then
        getTokenWithRetry closureCount (stateCount + 1) rest
      else
        (some none, stateCount)

/-- The `notification {title?, body?}` sub-payload of a push message. -/
structure NotificationContent where
  title : Option String
  body : Option String
deriving DecidableEq, Repr

/-- A push payload (`FirebaseMessagingTypes.RemoteMessage` as the router uses
it): an optional string-to-string `data` map and an optional notification
content. Per the transport invariant all `data` values are strings. -/
structure RemoteMessage where
  data : Option (List (String × String))
  notificationPart : Option NotificationContent
deriving DecidableEq, Repr

/-- Field access `message.data.<key>` as an optional string. -/
def dataValue (m : RemoteMessage) (key : String) : Option String :=
  match m.data with
  | none => none
  | some kvs => kvs.lookup key

/-- The stored string for a `data` key, for use after a presence check. -/
def dataStr (m : RemoteMessage) (key : String) : String :=
  (dataValue m key).getD ""

/-- Field access `message.notification?.title`. -/
def notifTitle (m : RemoteMessage) : Option String :=
  match m.notificationPart with
  | none => none
  | some c => c.title

/-- Field access `message.notification?.body`. -/
def notifBody (m : RemoteMessage) : Option String :=
  match m.notificationPart with
  | none => none
  | some c => c.body

/-- Check `notification.data && Object.keys(notification.data).length > 0`. -/
def dataNonEmpty (m : RemoteMessage) : Bool :=
  match m.data with
  | none => false
  | some kvs => !kvs.isEmpty

/-- The canonical destination the router dispatches: a map navigation, a
named-screen navigation, or the informational fallback of
`navigateWithNotificationData` (which also targets the map screen). -/
inductive Destination
  | toMap (params : List (String × String))
  | toScreen (route : String)
  | fallbackMap (params : List (String × String))
deriving DecidableEq, Repr

/-- Title for the map branches of `handleNotificationNavigation`:
`typeof data.title === 'string' ? data.title : notification?.title ||
'Localização'`. In this model every present `data` value is a string, so the
`typeof` check is presence. -/
def titleFromData (m : RemoteMessage) : String :=
  match dataValue m "title" with
  | some t => t
  | none => orElse (notifTitle m) "Localização"

/-- Message for the map branches of `handleNotificationNavigation`:
`typeof data.message === 'string' ? data.message : notification?.body || ''`. -/
def messageFromData (m : RemoteMessage) : String :=
  match dataValue m "message" with
  | some t => t
  | none => orElse (notifBody m) ""

/-- The `additionalParams` of the map branches: each of the six free-form
keys is carried through when present (`typeof === 'string'`), in source
order. -/
def additionalParamsTyped (m : RemoteMessage) : List (String × String) :=
  (match dataValue m "placa" with | some v => [("placa", v)] | none => []) ++
  (match dataValue m "end" with | some v => [("end", v)] | none => []) ++
  (match dataValue m "vel" with | some v => [("vel", v)] | none => []) ++
  (match dataValue m "dt" with | some v => [("dt", v)] | none => []) ++
  (match dataValue m "ign" with | some v => [("ign", v)] | none => []) ++
  (match dataValue m "id" with | some v => [("id", v)] | none => [])

/-- Function `navigateWithNotificationData` (root layout, src/unnamed/part_002 lines
283-363): title and message come from `notification?.title || 'Notificação'`
and `notification?.body || ''`; coordinates are added from truthy
`data.lat`/`data.latitude` and `data.lon`/`data.longitude`; the free-form
keys are added when truthy. `data.title`/`data.message` are not consulted. -/
def navigateWithNotificationData (m : RemoteMessage) : List (String × String) :=
  let title := orElse (notifTitle m) "Notificação"
  let message := orElse (notifBody m) ""
  let coords :=
    match m.data with
    | none => []
    | some _ =>
      (if truthy (dataValue m "lat") then [("latitude", dataStr m "lat")]
       else if truthy (dataValue m "latitude") then
         [("latitude", dataStr m "latitude")]
       else []) ++
      (if truthy (dataValue m "lon") then [("longitude", dataStr m "lon")]
       else if truthy (dataValue m "longitude") then
         [("longitude", dataStr m "longitude")]
       else [])
  let extras :=
    match m.data with
    | none => []
    | some _ =>
      (if truthy (dataValue m "placa") then [("placa", dataStr m "placa")] else []) ++
      (if truthy (dataValue m "end") then [("end", dataStr m "end")] else []) ++
      (if truthy (dataValue m "vel") then [("vel", dataStr m "vel")] else []) ++
      (if truthy (dataValue m "dt") then [("dt", dataStr m "dt")] else []) ++
      (if truthy (dataValue m "ign") then [("ign", dataStr m "ign")] else []) ++
      (if truthy (dataValue m "id") then [("id", dataStr m "id")] else [])
  [("title", title), ("message", message)] ++ coords ++ extras

/-- Function `handleNotificationNavigation` (root layout, src/unnamed/part_002 lines
122-280): with a non-empty `data` map, truthy `lat`+`lon` navigate to the map
with the raw strings, else truthy `latitude`+`longitude` (legacy shape), else
a truthy `screen` navigates to that route, else — and also with no or empty
`data` — it falls back to `navigateWithNotificationData`. -/
def handleNotificationNavigation (m : RemoteMessage) : Destination :=
  if dataNonEmpty m then
    if truthy (dataValue m "lat") && truthy (dataValue m "lon") then
      .toMap ([("latitude", dataStr m "lat"), ("longitude", dataStr m "lon"),
               ("title", titleFromData m), ("message", messageFromData m)] ++
              additionalParamsTyped m)
    else if truthy (dataValue m "latitude") && truthy (dataValue m "longitude") then
      .toMap ([("latitude", dataStr m "latitude"),
               ("longitude", dataStr m "longitude"),
               ("title", titleFromData m), ("message", messageFromData m)] ++
              additionalParamsTyped m)
    else if truthy (dataValue m "screen") then
      .toScreen (dataStr m "screen")
    else
      .fallbackMap (navigateWithNotificationData m)
  else
    .fallbackMap (navigateWithNotificationData m)

/-- Example payload with both coordinate pair, screen, and data/notification
titles, exercising the priority and override rules. -/
def exLatLonMsg : RemoteMessage :=
  { data := some [("lat", "-22.9519"), ("lon", "-43.2105"),
                  ("screen", "/settings"), ("title", "DT"), ("message", "DM")],
    notificationPart := some { title := some "NT", body := some "NB" } }

/-- Example payload whose `data` carries only display-text overrides, which
the fallback path ignores. -/
def exOverrideMsg : RemoteMessage :=
  { data := some [("title", "DT"), ("message", "DM")],
    notificationPart := some { title := some "NT", body := some "NB" } }

/-- Example payload in the legacy coordinate shape (`latitude`/`longitude`)
with display-text overrides in `data`. -/
def exLegacyMsg : RemoteMessage :=
  { data := some [("latitude", "-22.9519"), ("longitude", "-43.2105"),
                  ("title", "DT"), ("message", "DM")],
    notificationPart := some { title := some "NT", body := some "NB" } }

/-- Example payload resolving to a named screen while carrying display-text
overrides in `data`. -/
def exScreenOverrideMsg : RemoteMessage :=
  { data := some [("screen", "/settings"), ("title", "DT"), ("message", "DM")],
    notificationPart := some { title := some "NT", body := some "NB" } }

/-- Android 13+ environment with permission already denied; the user would
deny a prompt again. -/
def exDeniedAndroidEnv : TokenEnv :=
  { platform := .android 33, permState := .denied, promptGrant := false,
    fetchedToken := some "tok123" }

/-- Android 13+ environment with permission state not yet determined; the
user would grant a prompt. -/
def exUnknownAndroidEnv : TokenEnv :=
  { platform := .android 33, permState := .unknown, promptGrant := true,
    fetchedToken := some "tok123" }

/-- An iOS environment with permission denied. -/
def exIosDeniedEnv : TokenEnv :=
  { platform := .ios, permState := .denied, promptGrant := true,
    fetchedToken := some "tok123" }

/-- Characterisation of the per-entry matching rule as a proposition. -/
theorem domainMatches_iff (h e : String) :
    domainMatches h e = true ↔
      (if strHasDot e then h = e ∨ strEndsWith h ("." ++ e) = true
       else strContainsSub h e = true) := by
  unfold domainMatches
  by_cases hd : strHasDot e = true
  · simp [hd]
  · simp [hd]

/-- Claim C1: for a hostname H and an allow-list, the guard returns ALLOW
exactly when some entry matches H — a dotted entry by equality or by
`"." + entry` suffix, a bare entry by substring containment — and with an
empty allow-list every parseable URL is blocked. -/
theorem C1_guard_allow_iff :
    (∀ h l, evaluateNavigation (some h) l = .allow ↔
      ∃ e ∈ l, (if strHasDot e then h = e ∨ strEndsWith h ("." ++ e) = true
                else strContainsSub h e = true))
    ∧ (∀ h, evaluateNavigation (some h) ([] : List String) = .block) := by
  constructor
  · intro h l
    have key : evaluateNavigation (some h) l = .allow ↔
        isAllowedUrl h l = true := by
      unfold evaluateNavigation
      by_cases hA : isAllowedUrl h l = true <;> simp [hA]
    rw [key]
    unfold isAllowedUrl
    rw [List.any_eq_true]
    exact exists_congr fun e => and_congr_right fun _ => domainMatches_iff h e
  · intro h
    rfl

/-- Claim C2: a navigation whose URL cannot be parsed is allowed with no
reaction effects (fail-open), while a parseable hostname matching no entry is
blocked; parse failure never yields BLOCK. -/
theorem C2_fail_open_default_deny :
    (∀ l canGoBack base token,
      evaluateNavigation none l = .allow ∧
      handleNavigationStateChange none l canGoBack base token = [])
    ∧ (∀ h l, (∀ e ∈ l, domainMatches h e = false) →
        evaluateNavigation (some h) l = .block) := by
  constructor
  · intro l canGoBack base token
    exact ⟨rfl, rfl⟩
  · intro h l hno
    have hany : isAllowedUrl h l = false := by
      unfold isAllowedUrl
      rw [List.any_eq_false]
      intro e he
      simp [hno e he]
    unfold evaluateNavigation
    simp [hany]

/-- Witness for C2 at hostname `evil.com` against allow-list `[com.br]`. -/
theorem C2_fail_open_default_deny_witness :
    (∀ e ∈ (["com.br"] : List String), domainMatches "evil.com" e = false) ∧
    evaluateNavigation (some "evil.com") ["com.br"] = .block :=
  ⟨by decide, C2_fail_open_default_deny.2 "evil.com" ["com.br"] (by decide)⟩

/-- Claim C3: whenever the guard blocks, the handler stops the load, shows
the advisory toast, then goes back when possible and otherwise redirects to
the composed base address; the composed address is `base ++ "?device=" ++ t`
for a held token `t` and `base` alone with no token. -/
theorem C3_block_reaction :
    (∀ h l canGoBack base token,
      evaluateNavigation (some h) l = .block →
      handleNavigationStateChange (some h) l canGoBack base token =
        [.stopLoading, .toast "Navigation to external URLs is not allowed"] ++
          (if canGoBack then [.goBack]
           else [.redirect (constructUrl base token)]))
    ∧ (∀ base t, t ≠ "" →
        constructUrl base (some t) = base ++ "?device=" ++ t)
    ∧ (∀ base, constructUrl base none = base) := by
  refine ⟨?_, ?_, ?_⟩
  · intro h l canGoBack base token hblock
    have hA : isAllowedUrl h l = false := by
      by_cases hA : isAllowedUrl h l = true
      · unfold evaluateNavigation at hblock
        simp [hA] at hblock
      · simpa using hA
    unfold handleNavigationStateChange
    simp [hA]
  · intro base t ht
    match t with
    | ⟨[]⟩ => exact absurd rfl ht
    | ⟨c :: cs⟩ => rfl
  · intro base
    rfl

/-- Witness for C3 on the spec's end-to-end scenario: base
`https://m.example.com/app`, token `abc123`, blocked host `evil.com`. -/
theorem C3_block_reaction_witness :
    evaluateNavigation (some "evil.com") ["m.example.com"] = .block ∧
    handleNavigationStateChange (some "evil.com") ["m.example.com"] false
      "https://m.example.com/app" (some "abc123") =
      [.stopLoading, .toast "Navigation to external URLs is not allowed",
       .redirect "https://m.example.com/app?device=abc123"] ∧
    ("abc123" : String) ≠ "" ∧
    constructUrl "https://m.example.com/app" (some "abc123") =
      "https://m.example.com/app" ++ "?device=" ++ "abc123" :=
  ⟨by decide,
   C3_block_reaction.1 "evil.com" ["m.example.com"] false
     "https://m.example.com/app" (some "abc123") (by decide),
   by decide,
   C3_block_reaction.2.1 "https://m.example.com/app" "abc123" (by decide)⟩

/-- Claim C4: with a non-empty `data` map, resolution is first-match-wins —
truthy `lat`+`lon` go to the map with the raw strings; else truthy
`latitude`+`longitude`; else a truthy `screen` goes to that route; else the
informational fallback destination — and with no or empty `data` the fallback
is used. In particular `lat`/`lon` beats `screen` when both are present. -/
theorem C4_resolution_order (m : RemoteMessage) :
    (dataNonEmpty m = true →
      (truthy (dataValue m "lat") = true → truthy (dataValue m "lon") = true →
        ∃ ps, handleNotificationNavigation m = .toMap ps
          ∧ ps.lookup "latitude" = some (dataStr m "lat")
          ∧ ps.lookup "longitude" = some (dataStr m "lon"))
      ∧ ((truthy (dataValue m "lat") && truthy (dataValue m "lon")) = false →
          truthy (dataValue m "latitude") = true →
          truthy (dataValue m "longitude") = true →
          ∃ ps, handleNotificationNavigation m = .toMap ps
            ∧ ps.lookup "latitude" = some (dataStr m "latitude")
            ∧ ps.lookup "longitude" = some (dataStr m "longitude"))
      ∧ ((truthy (dataValue m "lat") && truthy (dataValue m "lon")) = false →
          (truthy (dataValue m "latitude") &&
            truthy (dataValue m "longitude")) = false →
          truthy (dataValue m "screen") = true →
          handleNotificationNavigation m = .toScreen (dataStr m "screen"))
      ∧ ((truthy (dataValue m "lat") && truthy (dataValue m "lon")) = false →
          (truthy (dataValue m "latitude") &&
            truthy (dataValue m "longitude")) = false →
          truthy (dataValue m "screen") = false →
          handleNotificationNavigation m =
            .fallbackMap (navigateWithNotificationData m)))
    ∧ (dataNonEmpty m = false →
        handleNotificationNavigation m =
          .fallbackMap (navigateWithNotificationData m)) := by
  constructor
  · intro hd
    refine ⟨?_, ?_, ?_, ?_⟩
    · intro hlat hlon
      refine ⟨[("latitude", dataStr m "lat"), ("longitude", dataStr m "lon"),
               ("title", titleFromData m), ("message", messageFromData m)] ++
              additionalParamsTyped m, ?_, rfl, rfl⟩
      unfold handleNotificationNavigation
      simp [hd, hlat, hlon]
    · intro h1 hlat hlon
      refine ⟨[("latitude", dataStr m "latitude"),
               ("longitude", dataStr m "longitude"),
               ("title", titleFromData m), ("message", messageFromData m)] ++
              additionalParamsTyped m, ?_, rfl, rfl⟩
      unfold handleNotificationNavigation
      simp [hd, h1, hlat, hlon]
    · intro h1 h2 hscreen
      unfold handleNotificationNavigation
      simp [hd, h1, h2, hscreen]
    · intro h1 h2 hscreen
      unfold handleNotificationNavigation
      simp [hd, h1, h2, hscreen]
  · intro hd
    unfold handleNotificationNavigation
    simp [hd]

/-- Witness for C4 at a payload carrying `lat`, `lon` and `screen`: the map
destination wins and carries the raw coordinate strings. -/
theorem C4_resolution_order_witness :
    dataNonEmpty exLatLonMsg = true ∧
    truthy (dataValue exLatLonMsg "lat") = true ∧
    truthy (dataValue exLatLonMsg "lon") = true ∧
    ∃ ps, handleNotificationNavigation exLatLonMsg = .toMap ps
      ∧ ps.lookup "latitude" = some (dataStr exLatLonMsg "lat")
      ∧ ps.lookup "longitude" = some (dataStr exLatLonMsg "lon") :=
  ⟨by decide, by decide, by decide,
   ((C4_resolution_order exLatLonMsg).1 (by decide)).1 (by decide) (by decide)⟩

/-- Claim C5, counterexample: the data fields do not set the destination's
title and message in every resolution case. A payload whose `data` holds
`title`/`message` overrides but no coordinates and no screen resolves through
the fallback, whose params take title `NT` from the notification part, not
`DT` from `data.title`; and a payload resolving to a named screen produces a
destination carrying only the route, with no title or message params at all. -/
theorem C5_counterexample :
    dataValue exOverrideMsg "title" = some "DT" ∧
    dataValue exOverrideMsg "message" = some "DM" ∧
    handleNotificationNavigation exOverrideMsg =
      .fallbackMap [("title", "NT"), ("message", "NB")] ∧
    ("NT" : String) ≠ "DT" ∧
    dataValue exScreenOverrideMsg "title" = some "DT" ∧
    handleNotificationNavigation exScreenOverrideMsg = .toScreen "/settings" := by
  refine ⟨by decide, by decide, by decide, by decide, by decide, by decide⟩

/-- Claim C5 as amended: `data.title`/`data.message` override the
notification part in both MAP resolution cases — the `lat`/`lon` branch and
the legacy `latitude`/`longitude` branch; the named-screen destination
carries only the route and no title or message params; and the fallback
destination always takes title from `notification.title || 'Notificação'`
and message from `notification.body || ''`, ignoring the data fields; with
no `data` the fallback is used, so its params are the notification title and
body. -/
theorem C5_amended (m : RemoteMessage) :
    (∀ t s, dataValue m "title" = some t → dataValue m "message" = some s →
      dataNonEmpty m = true →
      truthy (dataValue m "lat") = true → truthy (dataValue m "lon") = true →
      ∃ ps, handleNotificationNavigation m = .toMap ps
        ∧ ps.lookup "title" = some t ∧ ps.lookup "message" = some s)
    ∧ (∀ t s, dataValue m "title" = some t → dataValue m "message" = some s →
        dataNonEmpty m = true →
        (truthy (dataValue m "lat") && truthy (dataValue m "lon")) = false →
        truthy (dataValue m "latitude") = true →
        truthy (dataValue m "longitude") = true →
        ∃ ps, handleNotificationNavigation m = .toMap ps
          ∧ ps.lookup "title" = some t ∧ ps.lookup "message" = some s)
    ∧ (dataNonEmpty m = true →
        (truthy (dataValue m "lat") && truthy (dataValue m "lon")) = false →
        (truthy (dataValue m "latitude") &&
          truthy (dataValue m "longitude")) = false →
        truthy (dataValue m "screen") = true →
        handleNotificationNavigation m = .toScreen (dataStr m "screen"))
    ∧ (navigateWithNotificationData m).lookup "title" =
        some (orElse (notifTitle m) "Notificação")
    ∧ (navigateWithNotificationData m).lookup "message" =
        some (orElse (notifBody m) "")
    ∧ (dataNonEmpty m = false →
        handleNotificationNavigation m =
          .fallbackMap (navigateWithNotificationData m)) := by
  refine ⟨?_, ?_, ?_, rfl, rfl, ?_⟩
  · intro t s htitle hmsg hd hlat hlon
    refine ⟨[("latitude", dataStr m "lat"), ("longitude", dataStr m "lon"),
             ("title", titleFromData m), ("message", messageFromData m)] ++
            additionalParamsTyped m, ?_, ?_, ?_⟩
    · unfold handleNotificationNavigation
      simp [hd, hlat, hlon]
    · have h1 : titleFromData m = t := by
        unfold titleFromData
        rw [htitle]
      rw [← h1]
      rfl
    · have h2 : messageFromData m = s := by
        unfold messageFromData
        rw [hmsg]
      rw [← h2]
      rfl
  · intro t s htitle hmsg hd hpair hlat hlon
    refine ⟨[("latitude", dataStr m "latitude"),
             ("longitude", dataStr m "longitude"),
             ("title", titleFromData m), ("message", messageFromData m)] ++
            additionalParamsTyped m, ?_, ?_, ?_⟩
    · unfold handleNotificationNavigation
      simp [hd, hpair, hlat, hlon]
    · have h1 : titleFromData m = t := by
        unfold titleFromData
        rw [htitle]
      rw [← h1]
      rfl
    · have h2 : messageFromData m = s := by
        unfold messageFromData
        rw [hmsg]
      rw [← h2]
      rfl
  · intro hd hpair hlegacy hscreen
    unfold handleNotificationNavigation
    simp [hd, hpair, hlegacy, hscreen]
  · intro hd
    unfold handleNotificationNavigation
    simp [hd]

/-- Witness for the amended C5: with data overrides the `lat`/`lon` map
branch and the legacy `latitude`/`longitude` map branch both take the data
title and message, and the screen branch yields the bare route destination. -/
theorem C5_amended_witness :
    (∃ ps, handleNotificationNavigation exLatLonMsg = .toMap ps
      ∧ ps.lookup "title" = some "DT" ∧ ps.lookup "message" = some "DM") ∧
    (∃ ps, handleNotificationNavigation exLegacyMsg = .toMap ps
      ∧ ps.lookup "title" = some "DT" ∧ ps.lookup "message" = some "DM") ∧
    handleNotificationNavigation exScreenOverrideMsg =
      .toScreen (dataStr exScreenOverrideMsg "screen") :=
  ⟨(C5_amended exLatLonMsg).1 "DT" "DM" (by decide) (by decide) (by decide)
     (by decide) (by decide),
   (C5_amended exLegacyMsg).2.1 "DT" "DM" (by decide) (by decide) (by decide)
     (by decide) (by decide) (by decide),
   (C5_amended exScreenOverrideMsg).2.2.1 (by decide) (by decide) (by decide)
     (by decide)⟩

/-- Claim C6: the token retry loop is in fact unbounded. The recursive call
re-enters the closure whose captured `tokenRetryCount` is still the mount
value 0, so the retry guard `0 < MAX_TOKEN_RETRIES - 1` always passes: after
any number `n` of consecutive failed fetches the loop has consumed all `n`
outcomes and is still running (first component `none`), having incremented
the React counter `n` times — it never proceeds with a null token. -/
theorem C6_retry_unbounded :
    ∀ (n s : Nat),
      getTokenWithRetry 0 s (List.replicate n none) = (none, s + n) := by
  intro n
  induction n with
  | zero =>
    intro s
    rfl
  | succ k ih =>
    intro s
    rw [List.replicate_succ]
    show getTokenWithRetry 0 (s + 1) (List.replicate k none) = (none, s + (k + 1))
    rw [ih (s + 1)]
    have : s + 1 + k = s + (k + 1) := by omega
    rw [this]

/-- Claim C7, counterexample: on Android 13+ with permission already denied
and `forceRequest = false`, `getFCMToken` presents another permission prompt
(and, the user denying again, returns null), contradicting the claim that a
denied state returns null without re-prompting. -/
theorem C7_counterexample :
    exDeniedAndroidEnv.permState = .denied ∧
    getFCMToken false exDeniedAndroidEnv =
      { token := none, promptTriggered := true } := by
  refine ⟨rfl, by decide⟩

/-- Claim C7 as amended: on Android 13+ with `forceRequest = false`, any
non-granted state — unknown or denied — escalates to a permission request,
returning the fetched token when the prompt grants and null otherwise; on iOS
with `forceRequest = false` no prompt is ever presented and a non-granted
state returns null. -/
theorem C7_amended :
    (∀ env api, env.platform = .android api → 33 ≤ api →
      env.permState ≠ .granted →
      getFCMToken false env =
        { token := if env.promptGrant then env.fetchedToken else none,
          promptTriggered := true })
    ∧ (∀ env, env.platform = .ios →
        (getFCMToken false env).promptTriggered = false ∧
        (env.permState ≠ .granted → (getFCMToken false env).token = none)) := by
  constructor
  · intro env api hplat hapi hst
    have hcheck : hasPermissionCheck env.permState = false := by
      unfold hasPermissionCheck
      simp [hst]
    have h13 : isAndroid13OrHigher (.android api) = true := by
      simp [isAndroid13OrHigher, hapi]
    unfold getFCMToken
    simp [hplat, h13, hcheck, requestNotificationPermission]
  · intro env hplat
    constructor
    · unfold getFCMToken
      by_cases hg : hasPermissionCheck env.permState = true <;> simp [hplat, hg]
    · intro hst
      have hcheck : hasPermissionCheck env.permState = false := by
        unfold hasPermissionCheck
        simp [hst]
      unfold getFCMToken
      simp [hplat, hcheck]

/-- Witness for the amended C7: an unknown-state Android 13+ environment
escalates and succeeds; a denied iOS environment stays prompt-free and
returns null. -/
theorem C7_amended_witness :
    exUnknownAndroidEnv.permState ≠ .granted ∧
    getFCMToken false exUnknownAndroidEnv =
      { token := some "tok123", promptTriggered := true } ∧
    (getFCMToken false exIosDeniedEnv).promptTriggered = false ∧
    (getFCMToken false exIosDeniedEnv).token = none :=
  ⟨by decide,
   C7_amended.1 exUnknownAndroidEnv 33 rfl (by decide) (by decide),
   (C7_amended.2 exIosDeniedEnv rfl).1,
   (C7_amended.2 exIosDeniedEnv rfl).2 (by decide)⟩

/-- Claim C8, counterexample: a `windowOpen` message produces only the
advisory toast, which differs from the full blocked-navigation reaction
(stop, toast, then recovery navigation) the guard produces for the same
target, contradicting the claim that the reactions are identical. -/
theorem C8_counterexample :
    handleWebViewMessage false (.windowOpen "https://evil.com") =
      [.toast "Navigation to external URLs is not allowed"] ∧
    handleNavigationStateChange (some "evil.com") ["com.br"] false
      "https://m.wefleet.com.br/mob/mfrastreadores" none =
      [.stopLoading, .toast "Navigation to external URLs is not allowed",
       .redirect "https://m.wefleet.com.br/mob/mfrastreadores"] ∧
    handleWebViewMessage false (.windowOpen "https://evil.com") ≠
      handleNavigationStateChange (some "evil.com") ["com.br"] false
        "https://m.wefleet.com.br/mob/mfrastreadores" none := by
  refine ⟨by decide, by decide, by decide⟩

/-- Claim C8 as amended: every `windowOpen` message is answered with exactly
the advisory toast — no stop, back-navigation, or forced return to the base
address is performed. -/
theorem C8_window_open_advisory_only (supported : Bool) (u : String) :
    handleWebViewMessage supported (.windowOpen u) =
      [.toast "Navigation to external URLs is not allowed"] :=
  rfl

/-- Claim C9: with an explicit url present, an unresolvable deep link falls
back to `https://www.facebook.com/<username>` regardless of platform — the
fallback expression `url || cond ? a : b` groups as `(url || cond) ? a : b`
— while with no explicit url the fallback is the platform's web URL built
from the username, as evaluated here for instagram. -/
theorem C9_fallback_precedence_bug :
    openSocial "instagram" (some "alice") (some "https://example.com/p")
      false = [.openUrl "https://www.facebook.com/alice"] ∧
    openSocial "instagram" (some "alice") none false =
      [.openUrl "https://www.instagram.com/alice"] := by
  refine ⟨by decide, by decide⟩

/-- Claim C10: the first derived allow-list entry is always the last two
labels of the base hostname; for the configured base `m.wefleet.com.br` that
entry is `com.br`, the derived list is
`[com.br, m.wefleet.com.br, m2.wefleet.com.br]`, and every hostname ending in
`.com.br` — related to the base domain or not — is allowed by the guard. -/
theorem C10_derived_allowlist :
    (∀ h, (allowedDomains (some h)).head? = some (lastTwoLabels h))
    ∧ lastTwoLabels baseUrlHostname = "com.br"
    ∧ allowedDomains (some baseUrlHostname) =
        ["com.br", "m.wefleet.com.br", "m2.wefleet.com.br"]
    ∧ (∀ H, strEndsWith H ".com.br" = true →
        evaluateNavigation (some H) (allowedDomains (some baseUrlHostname)) =
          .allow) := by
  refine ⟨?_, by decide, by decide, ?_⟩
  · intro h
    unfold allowedDomains
    by_cases hc : strContainsSub h "wefleet.com.br" = true <;> simp [hc]
  · intro H hH
    have hlist : allowedDomains (some baseUrlHostname) =
        ["com.br", "m.wefleet.com.br", "m2.wefleet.com.br"] := by decide
    rw [hlist]
    have hmatch : domainMatches H "com.br" = true := by
      unfold domainMatches
      have hdot : strHasDot "com.br" = true := by decide
      have happ : ("." ++ "com.br" : String) = ".com.br" := by decide
      rw [hdot, happ]
      simp [hH]
    unfold evaluateNavigation isAllowedUrl
    simp [hmatch]

/-- Witness for C10: the unrelated host `evil.attacker.com.br` is allowed by
the allow-list derived from the configured base URL. -/
theorem C10_derived_allowlist_witness :
    strEndsWith "evil.attacker.com.br" ".com.br" = true ∧
    evaluateNavigation (some "evil.attacker.com.br")
      (allowedDomains (some baseUrlHostname)) = .allow :=
  ⟨by decide,
   C10_derived_allowlist.2.2.2 "evil.attacker.com.br" (by decide)⟩

end VeiculoRastreado
